import Mathlib

/-!
Verification development for `src/seq2seq/serve_seq2seq.py`, the REST
backend of the picard text-to-SQL server.  The FastAPI handlers are
embedded as pure Lean functions; the sqlite engine, the generation
pipelines and the filesystem are parameters of the embedding, so every
theorem quantifies over their behaviour where the Python code does not
constrain it.
-/

deriving instance DecidableEq for Except

namespace Picard

/-- Outcome of a handler: a value, or a raised `HTTPException` carrying
a status code and a detail message. -/
inductive HResult (α : Type) where
  | ok : α → HResult α
  | httpError : Nat → String → HResult α
  deriving DecidableEq, Repr

/-! ## Filesystem model for `GET /database`

`get_database_list` runs `Path(db_path).rglob("*.sqlite")` and keeps
`db_file.stem` for every match with `db_file.stem == db_file.parent.stem`.
A path is modelled as the list of its components; the first component is
the name of the database root directory, the last is the file name, so
`rglob` visits files at every depth below the root. -/

/-- Split a character list at every dot, keeping empty pieces, as
`str.split(".")` does. -/
def splitDots : List Char → List (List Char)
  | [] => [[]]
  | c :: cs =>
    let r := splitDots cs
    if c = '.' then [] :: r
    else
      match r with
      | [] => [[c]]
      | h :: t => (c :: h) :: t

/-- The stem of a file or directory name, following `pathlib.Path.stem`:
the name without its final dotted extension; a name whose only dot is a
leading one has no extension. -/
def stem (name : String) : String :=
  match splitDots name.toList with
  | [] => name
  | [_] => name
  | p :: rest =>
    if p == [] && rest.length == 1 then name
    else String.mk (List.intercalate ['.'] (p :: rest).dropLast)

/-- `true` when the suffix list closes the character list. -/
def endsWithL (s cs : List Char) : Bool := cs.drop (cs.length - s.length) == s

/-- Whether a file name matches the glob pattern `*.sqlite`. -/
def matchesSqliteGlob (name : String) : Bool :=
  endsWithL ".sqlite".toList name.toList

/-- A filesystem path as its list of components, starting at the
database root directory (inclusive). -/
abbrev FsPath := List String

/-- The final component of a path. -/
def fileName (p : FsPath) : String := p.getLastD ""

/-- The name of the directory containing the path. -/
def parentName (p : FsPath) : String := p.dropLast.getLastD ""

/-- `GET /database` (`get_database_list` in `serve_seq2seq.py`):
`rglob("*.sqlite")` over the root, keeping the stem of each match whose
stem equals the stem of its parent directory.  `files` is every file
under the root, each given with its full component list. -/
def get_database_list (files : List FsPath) : List String :=
  ((files.filter fun p => matchesSqliteGlob (fileName p)).filter
    (fun p => stem (fileName p) == stem (parentName p))).map
    (fun p => stem (fileName p))

/-! ## Schema administration: `POST /schema` and `PATCH /schema`

Both handlers check `db_file_path.exists()`, open a sqlite connection
(`sqlite3.connect` creates the database file on open when it is
absent), then run `cur.execute(query)` over the batch, `con.commit()`
after the loop, and turn an `OperationalError` into HTTP 400; the
`finally` block only closes the connection.

The Python sqlite3 module, at its default isolation level, implicitly
opens a transaction only before DML statements; a DDL statement such as
`CREATE TABLE` runs in autocommit mode when no transaction is open.  So
in a batch of DDL statements every successful statement is persisted
the moment it executes, and neither the absent `commit` nor closing the
connection on the error path undoes it.  The embedding models DDL
batches under these semantics. -/

/-- The sqlite engine as seen through `cur.execute` on one DDL
statement: success, or an `OperationalError` message.  A parameter of
the embedding. -/
abbrev Engine := String → Except String Unit

/-- The persisted state of one database: whether its file exists, and
the DDL statements persisted in it (standing in for the schema that
`get_schema` would introspect). -/
structure DBState where
  fileExists : Bool
  schemaStatements : List String
  deriving DecidableEq, Repr

/-- Run a DDL batch statement by statement, autocommitting each
success; stop at the first `OperationalError`, returning the persisted
statements and the message of the failure, if any. -/
def runDDLBatch (eng : Engine) (committed : List String) :
    List String → List String × Option String
  | [] => (committed, none)
  | q :: rest =>
    match eng q with
    | .ok _ => runDDLBatch eng (committed ++ [q]) rest
    | .error msg => (committed, some msg)

/-- `POST /schema/db_id` (`create_schema`): 409 when the database file
already exists; otherwise the connection creates the file, the batch
runs, an `OperationalError` becomes HTTP 400, and on success
`get_schema` returns the fresh schema (abstracted as the persisted
statement list). -/
def create_schema (eng : Engine) (st : DBState) (queries : List String) :
    DBState × HResult (List String) :=
  if st.fileExists then
    (st, .httpError 409 "database already exists")
  else
    let st1 : DBState := { st with fileExists := true }
    match runDDLBatch eng st1.schemaStatements queries with
    | (applied, some msg) => ({ st1 with schemaStatements := applied }, .httpError 400 msg)
    | (applied, none) => ({ st1 with schemaStatements := applied }, .ok applied)

/-- `PATCH /schema/db_id` (`update_schema`): 404 when the database file
does not exist; otherwise the same batch discipline as `create_schema`. -/
def update_schema (eng : Engine) (st : DBState) (queries : List String) :
    DBState × HResult (List String) :=
  if st.fileExists then
    match runDDLBatch eng st.schemaStatements queries with
    | (applied, some msg) => ({ st with schemaStatements := applied }, .httpError 400 msg)
    | (applied, none) => ({ st with schemaStatements := applied }, .ok applied)
  else
    (st, .httpError 404 "database not found")

/-- An engine that accepts every statement. -/
def goodEngine : Engine := fun _ => .ok ()

/-- An engine that rejects exactly the statement `"BAD"` with a syntax
error message. -/
def badEngine : Engine := fun q =>
  if q == "BAD" then .error "near BAD: syntax error" else .ok ()

theorem runDDLBatch_ok (eng : Engine) (acc : List String) (qs : List String)
    (h : ∀ q ∈ qs, eng q = .ok ()) :
    runDDLBatch eng acc qs = (acc ++ qs, none) := by
  induction qs generalizing acc with
  | nil => simp [runDDLBatch]
  | cons q rest ih =>
    have hq : eng q = .ok () := h q (by simp)
    have hrest : ∀ p ∈ rest, eng p = .ok () := fun p hp => h p (by simp [hp])
    simp [runDDLBatch, hq, ih (acc ++ [q]) hrest]

theorem runDDLBatch_fail (eng : Engine) (acc pre post : List String)
    (q msg : String) (hpre : ∀ p ∈ pre, eng p = .ok ())
    (hq : eng q = .error msg) :
    runDDLBatch eng acc (pre ++ q :: post) = (acc ++ pre, some msg) := by
  induction pre generalizing acc with
  | nil => simp [runDDLBatch, hq]
  | cons p ps ih =>
    have hp : eng p = .ok () := hpre p (by simp)
    have hps : ∀ r ∈ ps, eng r = .ok () := fun r hr => hpre r (by simp [hr])
    have := ih (acc ++ [p]) hps
    simp [runDDLBatch, hp, this]

/-! ## `GET /ask` and `POST /ask-with-schema`

`ask` first calls the generation pipeline (an `OperationalError` there
becomes HTTP 404), then connects to the database file and evaluates
`response` on every candidate through a list comprehension.  `response`
raises `HTTPException(500, ...)` on the first `OperationalError`, which
aborts the comprehension and hence the whole request.  The embedding
tracks, alongside the handler outcome, the list of queries actually
sent to the connection. -/

/-- One element of the `/ask` response body. -/
structure AskResponse where
  query : String
  execution_results : List (List String)
  deriving DecidableEq, Repr

/-- A sqlite connection as seen through `conn.execute(query).fetchall()`:
rows, or an `OperationalError` message.  A parameter of the embedding. -/
abbrev Conn := String → Except String (List (List String))

/-- The detail string `response` formats into the HTTP 500 exception. -/
def errDetail (query msg : String) : String :=
  "while executing \"" ++ query ++ "\", the following error occurred: " ++ msg

/-- `response` in `serve_seq2seq.py`: run one candidate; rows become an
`AskResponse`, an `OperationalError` becomes HTTP 500 for the whole
request. -/
def response (conn : Conn) (query : String) : HResult AskResponse :=
  match conn query with
  | .ok rows => .ok ⟨query, rows⟩
  | .error msg => .httpError 500 (errDetail query msg)

/-- The list comprehension in `ask`: `response` on each candidate in
input order; the first raised `HTTPException` aborts the rest.  Also
returns the queries actually executed on the connection. -/
def askExec (conn : Conn) : List String → HResult (List AskResponse) × List String
  | [] => (.ok [], [])
  | q :: rest =>
    match response conn q with
    | .httpError c m => (.httpError c m, [q])
    | .ok r =>
      match askExec conn rest with
      | (.ok rs, ran) => (.ok (r :: rs), q :: ran)
      | (.httpError c m, ran) => (.httpError c m, q :: ran)

/-- `GET /ask` (`ask`): the generation pipeline runs first and its
`OperationalError` becomes HTTP 404; only then is the connection opened
and each candidate executed.  The pipeline (resolution plus generation,
living outside this file) is a parameter. -/
def ask (pipe : String → String → Except String (List String)) (conn : Conn)
    (db_id question : String) : HResult (List AskResponse) × List String :=
  match pipe db_id question with
  | .error msg => (.httpError 404 msg, [])
  | .ok candidates => askExec conn candidates

/-- Request body of `POST /ask-with-schema`. -/
structure Query where
  question : String
  db_schema : String

/-- One generation pipeline output dictionary, keeping the key the
handler reads. -/
structure GenOutput where
  generated_text : String

/-- `POST /ask-with-schema` (`ask_with_schema`): the inline-schema
pipeline runs (HTTP 404 on `OperationalError`) and the handler returns
the `generated_text` of each output.  The handler body performs no
database operation, so the database state passes through untouched and
the executed-query log is empty. -/
def ask_with_schema (pipeWS : Query → Except String (List GenOutput))
    (st : DBState) (q : Query) :
    DBState × List String × HResult (List String) :=
  match pipeWS q with
  | .error msg => (st, [], .httpError 404 msg)
  | .ok outputs => (st, [], .ok (outputs.map (fun o => o.generated_text)))

/-- A connection that fails exactly on the candidate `"BAD SQL"`. -/
def mixedConn : Conn := fun q =>
  if q == "BAD SQL" then .error "incomplete input" else .ok [["1"]]

/-! ## `GET /serialized-schema`

The handler composes `get_schema_from_cache`, `serialize_schema` and
`spider_get_input`, all three defined in `seq2seq.utils.*`, outside
this repository slice; they are modelled from the spec below. -/

/-- Structural metadata of one database, in the shape the handler reads
from the cached schema dictionary: table names, columns as
(table index, column name) pairs, and foreign keys as pairs of column
indices. -/
structure SpiderSchema where
  db_table_names : List String
  db_column_names : List (Nat × String)
  db_foreign_keys : List (Nat × Nat)

/-- The names of the columns belonging to the table at a given index. -/
def columnsOf (s : SpiderSchema) (ti : Nat) : List String :=
  (s.db_column_names.filter (fun c => c.1 == ti)).map (fun c => c.2)

/-- The canonical `table.column` name of the column at a given index. -/
def columnFullName (s : SpiderSchema) (i : Nat) : String :=
  let c := s.db_column_names.getD i (0, "")
  s.db_table_names.getD c.1 "" ++ "." ++ c.2

/-- The two separator tokens of a named serialization style; `none` for
an unrecognized style. -/
def styleSeps (style : String) : Option (String × String) :=
  if style == "peteshaw" then some (" | ", " : ")
  else if style == "verbose" then some (" || ", " ; ")
  else none

/-- Modelled from the spec: `serialize_schema` (in
`seq2seq.utils.dataset`, not under `src/`).  Tables with their columns
are rendered as `table : col1, col2` groups joined by a style-dependent
separator; the database id is prefixed when requested; deterministic
sample content per column is appended when requested; foreign keys are
rendered as relation tokens over canonical `table.column` names when
requested; when `randomized` is set the table presentation order is
permuted by a request-scoped random seed (modelled as a rotation by the
seed); an unrecognized style fails. -/
def serialize_schema_m (db_id : String) (s : SpiderSchema) (style : String)
    (randomized with_db_id with_content fks : Bool)
    (content : String → List String) (seed : Nat) : Except String String :=
  match styleSeps style with
  | none => .error "unrecognized schema serialization type"
  | some (tableSep, colSep) =>
    let idxNames := (List.range s.db_table_names.length).zip s.db_table_names
    let order := if randomized then idxNames.rotate seed else idxNames
    let renderCol := fun (c : String) =>
      if with_content then
        c ++ " (" ++ String.intercalate ", " (content c) ++ ")"
      else c
    let body := String.intercalate tableSep
      (order.map fun tn =>
        tn.2 ++ colSep ++ String.intercalate ", " ((columnsOf s tn.1).map renderCol))
    let withFks :=
      if fks then
        body ++ tableSep ++ String.intercalate ", "
          (s.db_foreign_keys.map fun ab =>
            columnFullName s ab.1 ++ " = " ++ columnFullName s ab.2)
      else body
    .ok (if with_db_id then db_id ++ tableSep ++ withFks else withFks)

/-- Modelled from the spec: `spider_get_input` (in
`seq2seq.utils.spider`, not under `src/`) joins the given front matter,
the question and the serialized schema; the handler calls it with the
empty-string front matter convention. -/
def spider_get_input_m (question serialized pfx : String) : String :=
  pfx ++ question ++ " " ++ serialized

/-- `GET /serialized-schema/db_id` (`get_serialized_schema`): resolve
the schema through the cache (modelled as a lookup in the `store`
parameter), serialize it with the query-string options, and apply
`spider_get_input` with the fixed question `"question"` and empty front
matter. -/
def get_serialized_schema (store : String → Option SpiderSchema) (db_id : String)
    (style : String) (randomized with_db_id with_content fks : Bool)
    (content : String → List String) (seed : Nat) : Except String String :=
  match store db_id with
  | none => .error "database not found"
  | some s =>
    match serialize_schema_m db_id s style randomized with_db_id with_content fks content seed with
    | .error msg => .error msg
    | .ok serialized => .ok (spider_get_input_m "question" serialized "")

/-! ## Helper lemmas for the `/ask` executor -/

theorem askExec_all_ok (conn : Conn) (rows : String → List (List String))
    (cs : List String) (h : ∀ q ∈ cs, conn q = .ok (rows q)) :
    askExec conn cs = (.ok (cs.map fun q => AskResponse.mk q (rows q)), cs) := by
  induction cs with
  | nil => simp [askExec]
  | cons q rest ih =>
    have hq : conn q = .ok (rows q) := h q (by simp)
    have hrest : ∀ p ∈ rest, conn p = .ok (rows p) := fun p hp => h p (by simp [hp])
    simp [askExec, response, hq, ih hrest]

theorem askExec_aborts (conn : Conn) (rows : String → List (List String))
    (pre post : List String) (q msg : String)
    (hpre : ∀ p ∈ pre, conn p = .ok (rows p)) (hq : conn q = .error msg) :
    askExec conn (pre ++ q :: post) =
      (.httpError 500 (errDetail q msg), pre ++ [q]) := by
  induction pre with
  | nil => simp [askExec, response, hq]
  | cons p ps ih =>
    have hp : conn p = .ok (rows p) := hpre p (by simp)
    have hps : ∀ r ∈ ps, conn r = .ok (rows r) := fun r hr => hpre r (by simp [hr])
    simp [askExec, response, hp, ih hps]

/-! ## Claim theorems -/

/-- C1 counterexample: on the batch `SELECT 1; BAD SQL; SELECT 2` the
executor does not return three outcomes with an inline error for the
second; it raises HTTP 500 for the whole request and never executes the
third candidate. -/
theorem C1_counterexample :
    (askExec mixedConn ["SELECT 1", "BAD SQL", "SELECT 2"]).1 =
      .httpError 500 (errDetail "BAD SQL" "incomplete input") ∧
    (askExec mixedConn ["SELECT 1", "BAD SQL", "SELECT 2"]).2 =
      ["SELECT 1", "BAD SQL"] := by decide

/-- C1 amended: the executor evaluates the candidates in input order;
when every candidate succeeds it returns one outcome per candidate in
order, but the first candidate that fails aborts the request with
HTTP 500 whose detail embeds the failing query and the engine message,
and the candidates after it are not executed. -/
theorem C1_ask_candidate_failure (conn : Conn) (rows : String → List (List String))
    (cs pre post : List String) (q msg : String) :
    ((∀ r ∈ cs, conn r = .ok (rows r)) →
      askExec conn cs = (.ok (cs.map fun r => AskResponse.mk r (rows r)), cs)) ∧
    ((∀ p ∈ pre, conn p = .ok (rows p)) → conn q = .error msg →
      askExec conn (pre ++ q :: post) =
        (.httpError 500 (errDetail q msg), pre ++ [q])) :=
  ⟨fun h => askExec_all_ok conn rows cs h,
   fun h1 h2 => askExec_aborts conn rows pre post q msg h1 h2⟩

/-- C1 witness: the amended behaviour at a concrete all-good batch and
a concrete mixed batch. -/
theorem C1_ask_candidate_failure_witness :
    askExec mixedConn ["SELECT 1", "SELECT 2"] =
      (.ok [⟨"SELECT 1", [["1"]]⟩, ⟨"SELECT 2", [["1"]]⟩],
        ["SELECT 1", "SELECT 2"]) ∧
    askExec mixedConn ["SELECT 1", "BAD SQL", "SELECT 2"] =
      (.httpError 500 (errDetail "BAD SQL" "incomplete input"),
        ["SELECT 1", "BAD SQL"]) := by
  have h := C1_ask_candidate_failure mixedConn (fun _ => [["1"]])
      ["SELECT 1", "SELECT 2"] ["SELECT 1"] ["SELECT 2"] "BAD SQL" "incomplete input"
  exact ⟨h.1 (by decide), h.2 (by decide) (by decide)⟩

/-- C2 counterexample: an `update` batch whose second statement fails
returns HTTP 400, yet the first statement of the batch stays persisted,
so the database state differs from its pre-call state. -/
theorem C2_counterexample :
    update_schema badEngine ⟨true, ["CREATE TABLE t0 (x int)"]⟩
        ["CREATE TABLE a (x int)", "BAD", "CREATE TABLE b (x int)"] =
      (⟨true, ["CREATE TABLE t0 (x int)", "CREATE TABLE a (x int)"]⟩,
        .httpError 400 "near BAD: syntax error") ∧
    (⟨true, ["CREATE TABLE t0 (x int)", "CREATE TABLE a (x int)"]⟩ : DBState) ≠
      ⟨true, ["CREATE TABLE t0 (x int)"]⟩ := by decide

/-- C2 amended: when a statement of a DDL batch fails, `update` and
`create` fail with HTTP 400 carrying the engine message and stop, but
the statements that succeeded before the failure remain persisted
(sqlite autocommits DDL); there is no rollback to the pre-call schema. -/
theorem C2_ddl_batch_no_rollback (eng : Engine) (stU stC : DBState)
    (pre post : List String) (q msg : String)
    (hpre : ∀ p ∈ pre, eng p = .ok ()) (hq : eng q = .error msg) :
    (stU.fileExists = true →
      update_schema eng stU (pre ++ q :: post) =
        ({ stU with schemaStatements := stU.schemaStatements ++ pre },
          .httpError 400 msg)) ∧
    (stC.fileExists = false →
      create_schema eng stC (pre ++ q :: post) =
        (⟨true, stC.schemaStatements ++ pre⟩, .httpError 400 msg)) := by
  constructor
  · intro hfe
    have h := runDDLBatch_fail eng stU.schemaStatements pre post q msg hpre hq
    simp [update_schema, hfe, h]
  · intro hfe
    have h := runDDLBatch_fail eng stC.schemaStatements pre post q msg hpre hq
    simp [create_schema, hfe, h]

/-- C2 witness: the amended behaviour at a concrete failing batch for
both `update` and `create`. -/
theorem C2_ddl_batch_no_rollback_witness :
    update_schema badEngine ⟨true, ["CREATE TABLE t0 (x int)"]⟩
        ["CREATE TABLE a (x int)", "BAD", "CREATE TABLE b (x int)"] =
      (⟨true, ["CREATE TABLE t0 (x int)", "CREATE TABLE a (x int)"]⟩,
        .httpError 400 "near BAD: syntax error") ∧
    create_schema badEngine ⟨false, []⟩
        ["CREATE TABLE a (x int)", "BAD", "CREATE TABLE b (x int)"] =
      (⟨true, ["CREATE TABLE a (x int)"]⟩, .httpError 400 "near BAD: syntax error") := by
  have h := C2_ddl_batch_no_rollback badEngine ⟨true, ["CREATE TABLE t0 (x int)"]⟩
      ⟨false, []⟩ ["CREATE TABLE a (x int)"] ["CREATE TABLE b (x int)"] "BAD"
      "near BAD: syntax error" (by decide) (by decide)
  exact ⟨h.1 rfl, h.2 rfl⟩

/-- C3 counterexample: a root containing `/x/x.db` and `/y/z.db` yields
the empty list, not `x`, because only the `.sqlite` extension is
matched by the glob. -/
theorem C3_counterexample :
    get_database_list [["database", "x", "x.db"], ["database", "y", "z.db"]] = [] ∧
    get_database_list [["database", "x", "x.db"], ["database", "y", "z.db"]] ≠ ["x"] := by
  decide

/-- C3 amended: `listDatabases` returns exactly the stems of the files
matching `*.sqlite` at any depth under the root whose stem equals the
stem of their parent directory; with `/x/x.sqlite` and `/y/z.sqlite`
under the root it yields only `x`. -/
theorem C3_databases_listed (files : List FsPath) (s : String) :
    (s ∈ get_database_list files ↔
      ∃ p ∈ files, matchesSqliteGlob (fileName p) = true ∧
        stem (fileName p) = stem (parentName p) ∧ s = stem (fileName p)) ∧
    get_database_list [["database", "x", "x.sqlite"], ["database", "y", "z.sqlite"]] =
      ["x"] := by
  constructor
  · simp only [get_database_list, List.mem_map, List.mem_filter, beq_iff_eq]
    constructor
    · rintro ⟨p, ⟨⟨h1, h2⟩, h3⟩, h4⟩
      exact ⟨p, h1, h2, h3, h4.symm⟩
    · rintro ⟨p, h1, h2, h3, h4⟩
      exact ⟨p, ⟨⟨h1, h2⟩, h3⟩, h4.symm⟩
  · decide

/-- C3 witness: the amended membership characterization applied to the
matching pair `/x/x.sqlite`. -/
theorem C3_databases_listed_witness :
    "x" ∈ get_database_list
      [["database", "x", "x.sqlite"], ["database", "y", "z.sqlite"]] :=
  (C3_databases_listed
      [["database", "x", "x.sqlite"], ["database", "y", "z.sqlite"]] "x").1.mpr
    ⟨["database", "x", "x.sqlite"], by decide, by decide, by decide, by decide⟩

/-- C4: `create` on an existing database file fails with 409 applying
nothing (the state is returned unchanged), and a `create` following any
`create` on the same id fails with 409, since the first call leaves the
file existing whatever its outcome. -/
theorem C4_create_conflict (eng eng2 : Engine) (st : DBState) (qs qs2 : List String) :
    (st.fileExists = true →
      create_schema eng st qs = (st, .httpError 409 "database already exists")) ∧
    (create_schema eng2 (create_schema eng st qs).1 qs2).2 =
      .httpError 409 "database already exists" := by
  constructor
  · intro h
    simp [create_schema, h]
  · have hfe : (create_schema eng st qs).1.fileExists = true := by
      by_cases h : st.fileExists = true
      · simp [create_schema, h]
      · simp only [Bool.not_eq_true] at h
        rcases hr : runDDLBatch eng st.schemaStatements qs with ⟨applied, err⟩
        cases err <;> simp [create_schema, h, hr]
    generalize hG : (create_schema eng st qs).1 = st1 at hfe
    simp [create_schema, hfe]

/-- C4 witness: the 409 behaviour at a concrete existing database and
after a concrete first `create`. -/
theorem C4_create_conflict_witness :
    create_schema goodEngine ⟨true, []⟩ ["CREATE TABLE t (x int)"] =
      (⟨true, []⟩, .httpError 409 "database already exists") ∧
    (create_schema goodEngine
        (create_schema goodEngine ⟨false, []⟩ ["CREATE TABLE t (x int)"]).1
        ["CREATE TABLE u (y int)"]).2 =
      .httpError 409 "database already exists" :=
  ⟨(C4_create_conflict goodEngine goodEngine ⟨true, []⟩
      ["CREATE TABLE t (x int)"] []).1 rfl,
   (C4_create_conflict goodEngine goodEngine ⟨false, []⟩
      ["CREATE TABLE t (x int)"] ["CREATE TABLE u (y int)"]).2⟩

/-- C5: when the generation pipeline fails with an `OperationalError`
(as it does for a db id that does not resolve), `/ask` fails with
HTTP 404 carrying the message and no candidate is ever executed. -/
theorem C5_unknown_db (pipe : String → String → Except String (List String))
    (conn : Conn) (db_id question msg : String)
    (h : pipe db_id question = .error msg) :
    ask pipe conn db_id question = (.httpError 404 msg, []) := by
  simp [ask, h]

/-- A pipeline whose schema resolution always fails. -/
def noDbPipe : String → String → Except String (List String) :=
  fun _ _ => .error "no such database"

/-- C5 witness: the 404 behaviour at a concrete unresolved db id. -/
theorem C5_unknown_db_witness :
    ask noDbPipe mixedConn "missing_db" "how many rows" =
      (.httpError 404 "no such database", []) :=
  C5_unknown_db noDbPipe mixedConn "missing_db" "how many rows" "no such database" rfl

/-- C6: `/ask-with-schema` leaves the database state untouched,
executes nothing, and on pipeline success returns exactly the raw
`generated_text` of each output. -/
theorem C6_ask_with_schema_no_execution
    (pipeWS : Query → Except String (List GenOutput)) (st : DBState) (q : Query) :
    (ask_with_schema pipeWS st q).1 = st ∧
    (ask_with_schema pipeWS st q).2.1 = [] ∧
    (∀ outs, pipeWS q = .ok outs →
      (ask_with_schema pipeWS st q).2.2 =
        .ok (outs.map (fun o => o.generated_text))) := by
  refine ⟨?_, ?_, ?_⟩
  · cases h : pipeWS q <;> simp [ask_with_schema, h]
  · cases h : pipeWS q <;> simp [ask_with_schema, h]
  · intro outs h
    simp [ask_with_schema, h]

/-- A pipeline returning one fixed candidate. -/
def fixedPipeWS : Query → Except String (List GenOutput) :=
  fun _ => .ok [⟨"SELECT count( * ) FROM t"⟩]

/-- C6 witness: the frame and raw-candidate behaviour at a concrete
inline-schema request. -/
theorem C6_ask_with_schema_no_execution_witness :
    (ask_with_schema fixedPipeWS ⟨true, ["CREATE TABLE t (id int)"]⟩
        ⟨"how many", "t : id, name"⟩).1 = ⟨true, ["CREATE TABLE t (id int)"]⟩ ∧
    (ask_with_schema fixedPipeWS ⟨true, ["CREATE TABLE t (id int)"]⟩
        ⟨"how many", "t : id, name"⟩).2.1 = [] ∧
    (ask_with_schema fixedPipeWS ⟨true, ["CREATE TABLE t (id int)"]⟩
        ⟨"how many", "t : id, name"⟩).2.2 = .ok ["SELECT count( * ) FROM t"] := by
  have h := C6_ask_with_schema_no_execution fixedPipeWS
      ⟨true, ["CREATE TABLE t (id int)"]⟩ ⟨"how many", "t : id, name"⟩
  exact ⟨h.1, h.2.1, h.2.2 [⟨"SELECT count( * ) FROM t"⟩] rfl⟩

/-- C7: with `schema_serialization_randomized` false, schema resolution
followed by serialization is independent of the random seed, hence two
runs with the same store, id and options give identical output. -/
theorem C7_serialization_deterministic (store : String → Option SpiderSchema)
    (db_id style : String) (with_db_id with_content fks : Bool)
    (content : String → List String) (seed1 seed2 : Nat) :
    get_serialized_schema store db_id style false with_db_id with_content fks content seed1 =
      get_serialized_schema store db_id style false with_db_id with_content fks content seed2 :=
  rfl

/-- C9: a `create` whose DDL batch fails returns HTTP 400 but leaves
the database file (created when the connection was opened) on disk, so
a subsequent `create` for the same id fails with 409. -/
theorem C9_failed_create_leaves_file (eng eng2 : Engine) (st : DBState)
    (pre post qs2 : List String) (q msg : String)
    (h0 : st.fileExists = false)
    (hpre : ∀ p ∈ pre, eng p = .ok ())
    (hq : eng q = .error msg) :
    (create_schema eng st (pre ++ q :: post)).2 = .httpError 400 msg ∧
    (create_schema eng st (pre ++ q :: post)).1.fileExists = true ∧
    (create_schema eng2 (create_schema eng st (pre ++ q :: post)).1 qs2).2 =
      .httpError 409 "database already exists" := by
  have hrb := runDDLBatch_fail eng st.schemaStatements pre post q msg hpre hq
  have hcr : create_schema eng st (pre ++ q :: post) =
      (⟨true, st.schemaStatements ++ pre⟩, .httpError 400 msg) := by
    simp [create_schema, h0, hrb]
  rw [hcr]
  exact ⟨rfl, rfl, by simp [create_schema]⟩

/-- C9 witness: the file-left-behind behaviour at a concrete failing
`create` followed by a second `create`. -/
theorem C9_failed_create_leaves_file_witness :
    (create_schema badEngine ⟨false, []⟩ ["CREATE TABLE a (x int)", "BAD"]).2 =
      .httpError 400 "near BAD: syntax error" ∧
    (create_schema badEngine ⟨false, []⟩ ["CREATE TABLE a (x int)", "BAD"]).1.fileExists =
      true ∧
    (create_schema goodEngine
        (create_schema badEngine ⟨false, []⟩ ["CREATE TABLE a (x int)", "BAD"]).1
        ["CREATE TABLE u (y int)"]).2 =
      .httpError 409 "database already exists" :=
  C9_failed_create_leaves_file badEngine goodEngine ⟨false, []⟩
    ["CREATE TABLE a (x int)"] [] ["CREATE TABLE u (y int)"] "BAD"
    "near BAD: syntax error" rfl (by decide) (by decide)

/-- C10: the `rglob` search is recursive: any file matching `*.sqlite`
at any depth under the root whose stem equals the stem of its immediate
parent directory contributes its stem to the listing. -/
theorem C10_rglob_any_depth (files : List FsPath) (p : FsPath)
    (hp : p ∈ files) (hglob : matchesSqliteGlob (fileName p) = true)
    (hstem : stem (fileName p) = stem (parentName p)) :
    stem (fileName p) ∈ get_database_list files := by
  unfold get_database_list
  exact List.mem_map.mpr
    ⟨p, List.mem_filter.mpr
      ⟨List.mem_filter.mpr ⟨hp, hglob⟩, beq_iff_eq.mpr hstem⟩, rfl⟩

/-- C10 witness: a depth-two file `a/x/x.sqlite` under the root is
listed as `x`. -/
theorem C10_rglob_any_depth_witness :
    "x" ∈ get_database_list [["database", "a", "x", "x.sqlite"]] := by
  have h := C10_rglob_any_depth [["database", "a", "x", "x.sqlite"]]
      ["database", "a", "x", "x.sqlite"] (by decide) (by decide) (by decide)
  exact h

end Picard
